import Mathlib

/-!
Verification of the multi-scale GPU DSSIM pipeline driver
(`src_gpu/dawn_checksum.cpp`).

The CPU-side numeric logic of the program is embedded shallowly:
machine doubles are modelled as exact rationals (every finite double is a
rational), 64-bit unsigned accumulation is modelled as natural-number
arithmetic reduced modulo 2^64, and the floating-point `std::pow` is kept
as an abstract function parameter since its result is implementation
defined.  GPU shader dispatches only produce the `dssim_q` buffers that the
host code consumes, so those buffers appear as inputs of the host-side
definitions.
-/

/-- Fixed five scale weights, from `kDefaultScaleWeights` in
`dawn_checksum.cpp` (line 33). -/
def kDefaultScaleWeights : List ℚ := [28/1000, 197/1000, 322/1000, 298/1000, 155/1000]

/-- One iteration state of the multi-scale loop in `main`
(`dawn_checksum.cpp` lines 1294-1341).  Each iteration records the current
`(width, height)` pair on which Preprocess + Stage0 run, then either stops
(`level + 1 >= kDefaultScaleWeights.size()`, or `currWidth < 8 ||
currHeight < 8`) or halves the dimensions via the 2x2 downsampler
(`outWidth = inWidth / 2`, `outHeight = inHeight / 2`, lines 1009-1010).
The `remaining` argument is the number of loop iterations left, so the
C++ `for (level = 0; level < 5; ++level)` is entered with `remaining = 5`. -/
def msLoop : ℕ → ℕ → ℕ → ℕ → List (ℕ × ℕ)
  | _, _, _, 0 => []
  | w, h, level, remaining + 1 =>
    (w, h) ::
      (if level + 1 ≥ 5 then []
       else if w < 8 ∨ h < 8 then []
       else msLoop (w / 2) (h / 2) (level + 1) remaining)

/-- The dimension pairs of all scales produced by `main` for an input of
dimensions `w x h`. -/
def msDriver (w h : ℕ) : List (ℕ × ℕ) :=
  msLoop w h 0 5

/-- Number of scales produced by the multi-scale loop; this is
`compute.scales.size()`, reported as `used_scale_count` in the JSON. -/
def usedScaleCount (w h : ℕ) : ℕ :=
  (msDriver w h).length

/-- Modelled from the spec sentence of claim C1: after level `l`, the
downsampler is run and the next level started if and only if `l < 4` and
both current dimensions are at least 8.  The `fuel` argument only bounds
the recursion; with `fuel = 5` and `level = 0` it never runs out. -/
def specScaleLoop : ℕ → ℕ → ℕ → ℕ → List (ℕ × ℕ)
  | _, _, _, 0 => []
  | w, h, level, fuel + 1 =>
    (w, h) ::
      (if level < 4 ∧ 8 ≤ w ∧ 8 ≤ h then specScaleLoop (w / 2) (h / 2) (level + 1) fuel
       else [])

/-- The scale list described by claim C1's stopping rule. -/
def specScales (w h : ℕ) : List (ℕ × ℕ) :=
  specScaleLoop w h 0 5

theorem msLoop_eq_specScaleLoop (remaining : ℕ) :
    ∀ level w h, level + remaining = 5 →
      msLoop w h level remaining = specScaleLoop w h level remaining := by
  induction remaining with
  | zero => intro level w h _; rfl
  | succ n ih =>
    intro level w h hlv
    by_cases hstop : level + 1 ≥ 5
    · have hn : n = 0 := by omega
      subst hn
      simp [msLoop, specScaleLoop, hstop]
    · by_cases hsmall : w < 8 ∨ h < 8
      · have h4 : ¬ (level < 4 ∧ 8 ≤ w ∧ 8 ≤ h) := by omega
        simp [msLoop, specScaleLoop, hstop, hsmall, h4]
      · have h4 : level < 4 ∧ 8 ≤ w ∧ 8 ≤ h := by omega
        simp [msLoop, specScaleLoop, hstop, hsmall, h4]
        exact ih (level + 1) (w / 2) (h / 2) (by omega)

/-- C1: the multi-scale driver runs the downsampler and starts the next
level if and only if the current level is below 4 and both current
dimensions are at least 8, so for every input dimension pair the produced
scale list (and hence the scale count) is exactly the one generated by
this rule. -/
theorem claim_C1_driver_advance_rule (w h : ℕ) :
    msDriver w h = specScales w h ∧ usedScaleCount w h = (specScales w h).length := by
  have hmain : msDriver w h = specScales w h :=
    msLoop_eq_specScaleLoop 5 0 w h rfl
  exact ⟨hmain, by rw [usedScaleCount, hmain]⟩

/-- C2 counterexample: on a 32x32 input the driver does not stop after 3
scales; it produces a fourth scale at 4x4, because the stop test
`currWidth < 8 || currHeight < 8` is applied to the current dimensions
before downsampling, and 8x8 still passes it. -/
theorem claim_C2_counterexample : usedScaleCount 32 32 ≠ 3 := by decide

/-- C2 (amended): for a 32x32 input image pair the pipeline produces
exactly 4 scales, the downsampling sequence being 32 -> 16 -> 8 -> 4;
the loop stops only after running a scale whose current dimensions are
already below the threshold 8. -/
theorem claim_C2_amended :
    usedScaleCount 32 32 = 4 ∧
      msDriver 32 32 = [(32, 32), (16, 16), (8, 8), (4, 4)] := by
  exact ⟨by decide, by decide⟩

/-- Accumulation loop of the aggregator in `main` (`dawn_checksum.cpp`
lines 1343-1349): `weightedSum` and `weightTotal` accumulated over
`i < compute.scales.size()` with `kDefaultScaleWeights[i]`. -/
def aggregateLoop (ssimScores : List ℚ) : ℚ × ℚ :=
  (List.range ssimScores.length).foldl
    (fun acc i =>
      (acc.1 + ssimScores.getD i 0 * kDefaultScaleWeights.getD i 0,
       acc.2 + kDefaultScaleWeights.getD i 0))
    (0, 0)

/-- The aggregated `weighted_ssim` value (`dawn_checksum.cpp` line 1350). -/
def weightedSsim (ssimScores : List ℚ) : ℚ :=
  (aggregateLoop ssimScores).1 / (aggregateLoop ssimScores).2

/-- The positive floor `std::numeric_limits<double>::epsilon() = 2^-52`
used in the score transform (`dawn_checksum.cpp` line 1351). -/
def dblEpsilon : ℚ := 1 / 2 ^ 52

/-- Final score transform (`dawn_checksum.cpp` line 1351):
`score = 1 / max(weightedSsim, epsilon) - 1`. -/
def finalScore (ssimScores : List ℚ) : ℚ :=
  1 / max (weightedSsim ssimScores) dblEpsilon - 1

theorem foldl_pair_add_sum (f g : ℕ → ℚ) :
    ∀ (n : ℕ) (a b : ℚ),
      (List.range n).foldl (fun acc i => (acc.1 + f i, acc.2 + g i)) (a, b)
        = (a + ∑ i ∈ Finset.range n, f i, b + ∑ i ∈ Finset.range n, g i) := by
  intro n
  induction n with
  | zero => intro a b; simp
  | succ n ih =>
    intro a b
    rw [List.range_succ, List.foldl_append, ih]
    simp [Finset.sum_range_succ]
    constructor <;> ring

/-- C3: for every run producing `K` scale scores (`K <= 5`), the
aggregator computes `weighted_ssim` as the ratio of the weight-multiplied
score sum to the weight sum over exactly the produced scales, using the
fixed weights `[0.028, 0.197, 0.322, 0.298, 0.155]`; the final score is
`1 / max(weighted_ssim, eps) - 1` with `eps = 2^-52 > 0`, so the divisor
is never zero and `weighted_ssim = 1` yields score `0`. -/
theorem claim_C3_aggregator (ssimScores : List ℚ) (hK : ssimScores.length ≤ 5) :
    weightedSsim ssimScores =
        (∑ i ∈ Finset.range ssimScores.length,
            ssimScores.getD i 0 * kDefaultScaleWeights.getD i 0) /
          (∑ i ∈ Finset.range ssimScores.length, kDefaultScaleWeights.getD i 0) ∧
      kDefaultScaleWeights = [28/1000, 197/1000, 322/1000, 298/1000, 155/1000] ∧
      0 < dblEpsilon ∧
      0 < max (weightedSsim ssimScores) dblEpsilon ∧
      finalScore ssimScores = 1 / max (weightedSsim ssimScores) dblEpsilon - 1 ∧
      (weightedSsim ssimScores = 1 → finalScore ssimScores = 0) := by
  have heps : (0 : ℚ) < dblEpsilon := by norm_num [dblEpsilon]
  refine ⟨?_, rfl, heps, lt_of_lt_of_le heps (le_max_right _ _), rfl, ?_⟩
  · rw [weightedSsim, aggregateLoop, foldl_pair_add_sum]
    simp
  · intro h1
    have hle : dblEpsilon ≤ 1 := by norm_num [dblEpsilon]
    rw [finalScore, h1, max_eq_left hle]
    norm_num

/-- C3 witness: a concrete two-scale run. -/
theorem claim_C3_aggregator_witness :
    ([9/10, 1/2] : List ℚ).length ≤ 5 ∧
      (weightedSsim [9/10, 1/2] =
          (∑ i ∈ Finset.range ([9/10, 1/2] : List ℚ).length,
              ([9/10, 1/2] : List ℚ).getD i 0 * kDefaultScaleWeights.getD i 0) /
            (∑ i ∈ Finset.range ([9/10, 1/2] : List ℚ).length,
              kDefaultScaleWeights.getD i 0) ∧
        kDefaultScaleWeights = [28/1000, 197/1000, 322/1000, 298/1000, 155/1000] ∧
        0 < dblEpsilon ∧
        0 < max (weightedSsim [9/10, 1/2]) dblEpsilon ∧
        finalScore [9/10, 1/2] = 1 / max (weightedSsim [9/10, 1/2]) dblEpsilon - 1 ∧
        (weightedSsim [9/10, 1/2] = 1 → finalScore [9/10, 1/2] = 0)) :=
  ⟨by decide, claim_C3_aggregator [9/10, 1/2] (by decide)⟩

/-- Per-pixel SSIM recovered from the quantized DSSIM map, from
`RunStage0Compute` (`dawn_checksum.cpp` lines 982-983):
`dssim = dssimQ[i] / qscale; ssim = 1.0 - 2.0 * dssim`. -/
def ssimOfDssimQ (qscale : ℚ) (v : ℕ) : ℚ :=
  1 - 2 * ((v : ℚ) / qscale)

/-- Host-side per-scale score of `RunStage0Compute` (`dawn_checksum.cpp`
lines 979-994): build the per-pixel SSIM map, accumulate its sum, take
`avg = pow(max(meanSsim, 0), pow(0.5, scaleLevel))` with the
floating-point power function `powf` kept abstract, accumulate the
absolute deviations from `avg`, and return `1 - devSum / n`. -/
def stage0SsimScore (powf : ℚ → ℚ → ℚ) (scaleLevel : ℕ) (qscale : ℚ)
    (dssimQ : List ℕ) : ℚ :=
  let ssimMap := dssimQ.map (ssimOfDssimQ qscale)
  let ssimSum := ssimMap.foldl (· + ·) 0
  let meanSsim := ssimSum / (dssimQ.length : ℚ)
  let avg := powf (max meanSsim 0) (powf (1/2) (scaleLevel : ℚ))
  let devSum := ssimMap.foldl (fun acc s => acc + |avg - s|) 0
  1 - devSum / (dssimQ.length : ℚ)

theorem foldl_add_map_sum (f : ℚ → ℚ) :
    ∀ (l : List ℚ) (a : ℚ), l.foldl (fun acc s => acc + f s) a = a + (l.map f).sum := by
  intro l
  induction l with
  | nil => intro a; simp
  | cons x xs ih => intro a; simp [ih, add_assoc]

theorem foldl_add_eq_sum (l : List ℚ) : l.foldl (· + ·) 0 = l.sum := by
  have h := foldl_add_map_sum (fun s => s) l 0
  simpa using h

/-- C4: for every scale level, quantization scale and quantized map with a
positive pixel count, the per-scale score equals
`1 - mean |avg - SSIM(i)|`, where `SSIM(i) = 1 - 2 * dssim_q[i] / qscale`,
`mean_ssim` is the mean of the SSIM map, and
`avg = powf (max mean_ssim 0) (powf (1/2) level)` — `powf` being the
double-precision power function, kept abstract. -/
theorem claim_C4_stage0_score (powf : ℚ → ℚ → ℚ) (scaleLevel : ℕ) (qscale : ℚ)
    (dssimQ : List ℕ) (hn : dssimQ ≠ []) :
    stage0SsimScore powf scaleLevel qscale dssimQ =
      1 -
        ((dssimQ.map (fun (v : ℕ) =>
            |powf
                (max ((dssimQ.map (fun (u : ℕ) => 1 - 2 * ((u : ℚ) / qscale))).sum /
                    (dssimQ.length : ℚ)) 0)
                (powf (1/2) (scaleLevel : ℚ)) -
              (1 - 2 * ((v : ℚ) / qscale))|)).sum /
          (dssimQ.length : ℚ)) := by
  rw [stage0SsimScore]
  simp only [foldl_add_eq_sum, foldl_add_map_sum, zero_add]
  rw [List.map_map]
  rfl

/-- C4 witness: a concrete nonempty quantized map at level 0 with
`qscale = 10^8` and a concrete power function. -/
theorem claim_C4_stage0_score_witness :
    ([0, 50000000] : List ℕ) ≠ [] ∧
      stage0SsimScore (fun x y => x * y) 0 (10 ^ 8) [0, 50000000] =
        1 -
          ((([0, 50000000] : List ℕ).map (fun (v : ℕ) =>
              |(fun x y => x * y)
                  (max ((([0, 50000000] : List ℕ).map
                      (fun (u : ℕ) => 1 - 2 * ((u : ℚ) / 10 ^ 8))).sum /
                      (([0, 50000000] : List ℕ).length : ℚ)) 0)
                  ((fun x y => x * y) (1/2) ((0 : ℕ) : ℚ)) -
                (1 - 2 * ((v : ℚ) / 10 ^ 8))|)).sum /
            (([0, 50000000] : List ℕ).length : ℚ)) :=
  ⟨by decide, claim_C4_stage0_score (fun x y => x * y) 0 (10 ^ 8) [0, 50000000] (by decide)⟩

/-- Host-side accumulation of the quantized DSSIM map in
`RunStage0Compute` (`dawn_checksum.cpp` lines 971-975): a `std::uint64_t`
running sum over the `u32` map entries, modelled with reduction modulo
`2^64` at every step. -/
def sumDssimU64 (dssimQ : List ℕ) : ℕ :=
  dssimQ.foldl (fun sum v => (sum + v) % 2 ^ 64) 0

/-- The reported `mean_dssim` (`dawn_checksum.cpp` lines 976-977):
`sum / (elemCount * qscale)` in double precision, modelled exactly over
the rationals. -/
def meanDssim (sum elemCount qscale : ℕ) : ℚ :=
  (sum : ℚ) / ((elemCount : ℚ) * (qscale : ℚ))

theorem foldl_mod_eq_sum (l : List ℕ) :
    ∀ a : ℕ, a + l.sum < 2 ^ 64 →
      l.foldl (fun sum v => (sum + v) % 2 ^ 64) a = a + l.sum := by
  induction l with
  | nil => intro a _; simp
  | cons x xs ih =>
    intro a hlt
    simp only [List.sum_cons] at hlt ⊢
    have hx : a + x < 2 ^ 64 := by omega
    rw [List.foldl_cons, Nat.mod_eq_of_lt hx, ih (a + x) (by omega)]
    omega

/-- C5: for every scale, the 64-bit accumulated sum equals the exact sum
of the quantized map (the accumulation never wraps: entries are `u32`
values and the element count passes the `u32` bound check at
`dawn_checksum.cpp` lines 622-624, and `qscale * w * h <= 2^64` bounds the
total), the exact sum is at most `qscale * w * h`, and `mean_dssim` equals
`sum / (qscale * w * h)` where `w * h` is the scale's element count. -/
theorem claim_C5_sum_exact (dssimQ : List ℕ) (qscale w h : ℕ)
    (hval32 : ∀ v ∈ dssimQ, v < 2 ^ 32)
    (hq32 : qscale < 2 ^ 32)
    (hlen : dssimQ.length = w * h)
    (hcount : w * h < 2 ^ 32)
    (hquant : ∀ v ∈ dssimQ, v ≤ qscale)
    (hbound : qscale * (w * h) ≤ 2 ^ 64) :
    sumDssimU64 dssimQ = dssimQ.sum ∧
      dssimQ.sum ≤ qscale * (w * h) ∧
      meanDssim (sumDssimU64 dssimQ) (w * h) qscale =
        (dssimQ.sum : ℚ) / ((qscale : ℚ) * ((w * h : ℕ) : ℚ)) := by
  have hsum_le : dssimQ.sum ≤ dssimQ.length * (2 ^ 32 - 1) := by
    calc dssimQ.sum ≤ dssimQ.length • (2 ^ 32 - 1) :=
          List.sum_le_card_nsmul dssimQ (2 ^ 32 - 1) (fun v hv => by
            have := hval32 v hv; omega)
      _ = dssimQ.length * (2 ^ 32 - 1) := smul_eq_mul ..
  have hlt : dssimQ.sum < 2 ^ 64 := by
    have hlenlt : dssimQ.length < 2 ^ 32 := by omega
    have hstep : dssimQ.length * (2 ^ 32 - 1) < 2 ^ 32 * (2 ^ 32 - 1) :=
      (Nat.mul_lt_mul_right (by norm_num)).mpr hlenlt
    omega
  have hexact : sumDssimU64 dssimQ = dssimQ.sum := by
    have := foldl_mod_eq_sum dssimQ 0 (by omega)
    simpa [sumDssimU64] using this
  have hle : dssimQ.sum ≤ qscale * (w * h) := by
    calc dssimQ.sum ≤ dssimQ.length • qscale := List.sum_le_card_nsmul dssimQ qscale hquant
      _ = dssimQ.length * qscale := smul_eq_mul ..
      _ = qscale * (w * h) := by rw [hlen, Nat.mul_comm]
  refine ⟨hexact, hle, ?_⟩
  rw [meanDssim, hexact, mul_comm ((w * h : ℕ) : ℚ) (qscale : ℚ)]

/-- C5 witness: a concrete two-element map with `qscale = 10^8` on a 2x1
scale. -/
theorem claim_C5_sum_exact_witness :
    ((∀ v ∈ ([7, 50000000] : List ℕ), v < 2 ^ 32) ∧
        10 ^ 8 < 2 ^ 32 ∧
        ([7, 50000000] : List ℕ).length = 2 * 1 ∧
        2 * 1 < 2 ^ 32 ∧
        (∀ v ∈ ([7, 50000000] : List ℕ), v ≤ 10 ^ 8) ∧
        10 ^ 8 * (2 * 1) ≤ 2 ^ 64) ∧
      (sumDssimU64 [7, 50000000] = ([7, 50000000] : List ℕ).sum ∧
        ([7, 50000000] : List ℕ).sum ≤ 10 ^ 8 * (2 * 1) ∧
        meanDssim (sumDssimU64 [7, 50000000]) (2 * 1) (10 ^ 8) =
          ((([7, 50000000] : List ℕ).sum : ℚ) /
            ((10 ^ 8 : ℕ) * ((2 * 1 : ℕ) : ℚ)))) :=
  ⟨⟨by decide, by norm_num, by decide, by norm_num, by decide, by norm_num⟩,
    claim_C5_sum_exact [7, 50000000] (10 ^ 8) 2 1 (by decide) (by norm_num) (by decide)
      (by norm_num) (by decide) (by norm_num)⟩

/-- Decoded PNG image, from `DecodedImage` in `png_loader.h`; pixels are
the flat RGBA8 bytes. -/
structure DecodedImage where
  width : ℕ
  height : ℕ
  channels : ℕ
  pixels : List ℕ
deriving DecidableEq

/-- Observable side effects of `main` (`dawn_checksum.cpp` lines
1226-1401), in program order: shader resolution and PNG decoding happen
first, all GPU work (instance/adapter/device setup and the per-level
dispatches) comes after the input validation, and the debug dump, JSON
report and standard-output line come last. -/
inductive MainEvent where
  | resolveShaders
  | loadPng (which : ℕ)
  | gpuInit
  | gpuDispatch (level : ℕ)
  | writeDebugDump
  | writeJson
  | writeStdout
deriving DecidableEq

/-- Whether an event is GPU work (instance/adapter/device setup or a
compute dispatch). -/
def isGpuEvent : MainEvent → Bool
  | .gpuInit => true
  | .gpuDispatch _ => true
  | _ => false

/-- Whether an event writes a report or output file (debug dump, JSON
report, or the stdout score line). -/
def isReportEvent : MainEvent → Bool
  | .writeDebugDump => true
  | .writeJson => true
  | .writeStdout => true
  | _ => false

/-- Control flow of `main` (`dawn_checksum.cpp` lines 1226-1401) at the
event level: resolve and read the three shaders, decode both PNGs, fail
with "decoded png pixels are empty" on an empty decode (line 1237-1239),
fail with the size-mismatch diagnostic when dimensions differ (lines
1240-1242), and only then perform GPU setup, one Stage0 dispatch per
produced scale, and the requested outputs. -/
def mainRun (image1 image2 : DecodedImage) (outRequested debugRequested : Bool) :
    List MainEvent × Except String Unit :=
  let pre := [MainEvent.resolveShaders, MainEvent.loadPng 1, MainEvent.loadPng 2]
  if image1.pixels = [] ∨ image2.pixels = [] then
    (pre, Except.error "decoded png pixels are empty")
  else if image1.width ≠ image2.width ∨ image1.height ≠ image2.height then
    (pre, Except.error "image size mismatch; multi-scale stage requires identical dimensions")
  else
    let levels := msDriver image1.width image1.height
    (pre ++ [MainEvent.gpuInit] ++
        (List.range levels.length).map MainEvent.gpuDispatch ++
        (if debugRequested then [MainEvent.writeDebugDump] else []) ++
        (if outRequested then [MainEvent.writeJson] else []) ++
        [MainEvent.writeStdout],
      Except.ok ())

/-- Process exit code of `main`: the top-level catch turns any thrown
error into exit code 1 (`dawn_checksum.cpp` lines 1402-1405). -/
def exitCode (r : Except String Unit) : ℕ :=
  match r with
  | .ok _ => 0
  | .error _ => 1

/-- C6: when the two decoded images have mismatched width or height (and
both decoded successfully), `main` fails with the invalid-input
diagnostic and exit code 1, and its event trace contains no GPU work and
no JSON, debug or stdout output. -/
theorem claim_C6_mismatch_aborts (image1 image2 : DecodedImage)
    (outRequested debugRequested : Bool)
    (hne1 : image1.pixels ≠ []) (hne2 : image2.pixels ≠ [])
    (hmm : image1.width ≠ image2.width ∨ image1.height ≠ image2.height) :
    (mainRun image1 image2 outRequested debugRequested).2 =
        Except.error "image size mismatch; multi-scale stage requires identical dimensions" ∧
      exitCode (mainRun image1 image2 outRequested debugRequested).2 = 1 ∧
      ∀ e ∈ (mainRun image1 image2 outRequested debugRequested).1,
        isGpuEvent e = false ∧ isReportEvent e = false := by
  have hrun : mainRun image1 image2 outRequested debugRequested =
      ([MainEvent.resolveShaders, MainEvent.loadPng 1, MainEvent.loadPng 2],
        Except.error "image size mismatch; multi-scale stage requires identical dimensions") := by
    rw [mainRun]
    rw [if_neg (by simp [hne1, hne2]), if_pos hmm]
  rw [hrun]
  refine ⟨rfl, rfl, ?_⟩
  intro e he
  simp only [List.mem_cons, List.not_mem_nil, or_false] at he
  rcases he with h | h | h <;> subst h <;> exact ⟨rfl, rfl⟩

/-- C6 witness: a concrete 64x32 vs 64x33 pair, matching scenario 6 of
the spec. -/
theorem claim_C6_mismatch_aborts_witness :
    ((⟨64, 32, 4, [0]⟩ : DecodedImage).pixels ≠ [] ∧
        (⟨64, 33, 4, [0]⟩ : DecodedImage).pixels ≠ [] ∧
        ((⟨64, 32, 4, [0]⟩ : DecodedImage).width ≠ (⟨64, 33, 4, [0]⟩ : DecodedImage).width ∨
          (⟨64, 32, 4, [0]⟩ : DecodedImage).height ≠ (⟨64, 33, 4, [0]⟩ : DecodedImage).height)) ∧
      ((mainRun ⟨64, 32, 4, [0]⟩ ⟨64, 33, 4, [0]⟩ true true).2 =
          Except.error "image size mismatch; multi-scale stage requires identical dimensions" ∧
        exitCode (mainRun ⟨64, 32, 4, [0]⟩ ⟨64, 33, 4, [0]⟩ true true).2 = 1 ∧
        ∀ e ∈ (mainRun ⟨64, 32, 4, [0]⟩ ⟨64, 33, 4, [0]⟩ true true).1,
          isGpuEvent e = false ∧ isReportEvent e = false) :=
  ⟨⟨by decide, by decide, Or.inr (by decide)⟩,
    claim_C6_mismatch_aborts ⟨64, 32, 4, [0]⟩ ⟨64, 33, 4, [0]⟩ true true
      (by decide) (by decide) (Or.inr (by decide))⟩

/-- The strings written to standard output by a successful run of `main`
(`dawn_checksum.cpp` lines 1391-1400), in order: the score/path line and
the three profiling diagnostics.  `scoreText` stands for the
8-fractional-digit fixed formatting of the score produced by
`std::fixed << std::setprecision(8)`; the three integer arguments are the
measured millisecond durations. -/
def successStdoutWrites (scoreText image2Path : String)
    (decodeMs shaderMs psoMs : ℤ) : List String :=
  [scoreText ++ "\t" ++ image2Path ++ "\n",
   "[profiling] decode_done_to_score_ms = " ++ toString decodeMs ++ "\n",
   "[profiling] CreateShaderModule processing time = " ++ toString shaderMs ++ "ms\n",
   "[profiling] CreatePSO processing time = " ++ toString psoMs ++ "ms\n"]

/-- Everything a successful run of `main` writes to standard output. -/
def successStdoutText (scoreText image2Path : String)
    (decodeMs shaderMs psoMs : ℤ) : String :=
  String.join (successStdoutWrites scoreText image2Path decodeMs shaderMs psoMs)

/-- C7 counterexample: standard output of a successful run is not the
single line `<score-text>\t<image2-path>\n`; `main` also prints three
`[profiling]` diagnostics to stdout (`dawn_checksum.cpp` lines
1396-1400). -/
theorem claim_C7_counterexample :
    successStdoutText "0.00000000" "b.png" 5 1 2 ≠
      "0.00000000" ++ "\t" ++ "b.png" ++ "\n" := by decide

/-- C7 (amended): on success, standard output consists of the line
`<score-text>\t<image2-path>\n` followed by exactly three diagnostic
lines each starting with `[profiling] `; the score/path line comes
first and nothing precedes it. -/
theorem claim_C7_amended (scoreText image2Path : String)
    (decodeMs shaderMs psoMs : ℤ) :
    (successStdoutWrites scoreText image2Path decodeMs shaderMs psoMs).length = 4 ∧
      (successStdoutWrites scoreText image2Path decodeMs shaderMs psoMs).head? =
        some (scoreText ++ "\t" ++ image2Path ++ "\n") ∧
      (∀ line ∈ (successStdoutWrites scoreText image2Path decodeMs shaderMs psoMs).drop 1,
        ∃ t, line = "[profiling] " ++ t) ∧
      successStdoutText scoreText image2Path decodeMs shaderMs psoMs =
        String.join (successStdoutWrites scoreText image2Path decodeMs shaderMs psoMs) := by
  refine ⟨rfl, rfl, ?_, rfl⟩
  intro line hline
  simp only [successStdoutWrites, List.drop, List.mem_cons, List.not_mem_nil, or_false] at hline
  rcases hline with h | h | h
  · refine ⟨"decode_done_to_score_ms = " ++ toString decodeMs ++ "\n", ?_⟩
    rw [h, ← String.append_assoc, ← String.append_assoc]
    rfl
  · refine ⟨"CreateShaderModule processing time = " ++ toString shaderMs ++ "ms\n", ?_⟩
    rw [h, ← String.append_assoc, ← String.append_assoc]
    rfl
  · refine ⟨"CreatePSO processing time = " ++ toString psoMs ++ "ms\n", ?_⟩
    rw [h, ← String.append_assoc, ← String.append_assoc]
    rfl

/-- Model of `WriteF32LeBuffer` (`dawn_checksum.cpp` lines 316-335): open
the output file (may fail), write the raw little-endian bytes only when
the vector is nonempty (the write may fail), and throw if the stream went
bad; on success return the number of bytes written (4 per `f32` value).
`openOk` and `writeOk` model the health of the two stream operations. -/
def writeF32LeBuffer (openOk writeOk : Bool) (values : List ℚ) : Except String ℕ :=
  if openOk = false then
    Except.error "failed to open output"
  else if values ≠ [] ∧ writeOk = false then
    Except.error "failed to write output"
  else
    Except.ok (values.length * 4)

/-- C8 counterexample: given an empty tensor and a healthy filesystem,
the exporter's buffer writer succeeds and writes a zero-byte file; it
does not raise any error. -/
theorem claim_C8_counterexample :
    writeF32LeBuffer true true [] = Except.ok 0 ∧
      ∀ msg, writeF32LeBuffer true true [] ≠ Except.error msg := by
  refine ⟨rfl, ?_⟩
  intro msg h
  simp [writeF32LeBuffer] at h

/-- C8 (amended): when a tensor it exports is empty, the exporter does
not fail; it writes a zero-byte file and succeeds whenever the file can
be opened, and the only failures are stream failures. -/
theorem claim_C8_amended (openOk writeOk : Bool) :
    writeF32LeBuffer openOk writeOk [] =
      (if openOk then Except.ok 0 else Except.error "failed to open output") := by
  cases openOk <;> rfl

/-- One uppercase hexadecimal digit, as produced by
`std::uppercase << std::hex` in `ToHexU64` (`dawn_checksum.cpp` lines
143-151): digits `0`-`9` have codes `48 + d`, letters `A`-`F` have codes
`55 + d`. -/
def hexDigitChar (d : ℕ) : Char :=
  if d < 10 then Char.ofNat (48 + d) else Char.ofNat (55 + d)

/-- The `k` big-endian hexadecimal digits of `n`, matching
`std::setw(16) << std::setfill('0') << bits` for `n < 16^k`: leading
zeros are kept so exactly `k` digits come out. -/
def toHexDigits : ℕ → ℕ → List Char
  | _, 0 => []
  | n, k + 1 => toHexDigits (n / 16) k ++ [hexDigitChar (n % 16)]

/-- Model of `ToHexU64` (`dawn_checksum.cpp` lines 143-151): the `0x`-prefixed
16-digit uppercase big-endian hex rendering of the 64-bit bit pattern. -/
def toHexU64 (bits : ℕ) : String :=
  "0x" ++ String.mk (toHexDigits bits 16)

/-- Numeric value of an uppercase hexadecimal digit character; this is
the decoding step claim C9 describes (parse the 16 hex digits back into
a `u64`). -/
def hexVal (c : Char) : ℕ :=
  if c.toNat ≥ 65 then c.toNat - 55 else c.toNat - 48

/-- Big-endian hexadecimal parse of a digit list. -/
def parseHexDigits (cs : List Char) : ℕ :=
  cs.foldl (fun acc c => 16 * acc + hexVal c) 0

theorem hexVal_hexDigitChar (d : ℕ) (hd : d < 16) :
    hexVal (hexDigitChar d) = d := by
  interval_cases d <;> decide

theorem length_toHexDigits (k : ℕ) : ∀ n, (toHexDigits n k).length = k := by
  induction k with
  | zero => intro n; rfl
  | succ k ih => intro n; simp [toHexDigits, ih]

theorem parseHexDigits_snoc (l : List Char) (c : Char) :
    parseHexDigits (l ++ [c]) = 16 * parseHexDigits l + hexVal c := by
  rw [parseHexDigits, List.foldl_append]
  rfl

theorem parseHexDigits_toHexDigits (k : ℕ) :
    ∀ n, n < 16 ^ k → parseHexDigits (toHexDigits n k) = n := by
  induction k with
  | zero =>
    intro n hn
    interval_cases n
    rfl
  | succ k ih =>
    intro n hn
    rw [toHexDigits, parseHexDigits_snoc,
      ih (n / 16) (Nat.div_lt_of_lt_mul (by rw [pow_succ] at hn; omega)),
      hexVal_hexDigitChar (n % 16) (Nat.mod_lt n (by norm_num))]
    omega

/-- C9: for every 64-bit pattern, the `score_bits_u64` string emitted by
`ToHexU64` is `0x` followed by exactly 16 hex digits, and parsing those
16 digits back as a base-16 number recovers exactly the original bit
pattern, so bit-casting them to a double gives back `score_f64`
losslessly. -/
theorem claim_C9_hex_roundtrip (bits : ℕ) (h : bits < 2 ^ 64) :
    toHexU64 bits = "0x" ++ String.mk (toHexDigits bits 16) ∧
      (toHexDigits bits 16).length = 16 ∧
      parseHexDigits (toHexDigits bits 16) = bits := by
  refine ⟨rfl, length_toHexDigits 16 bits, ?_⟩
  exact parseHexDigits_toHexDigits 16 bits (by norm_num at h ⊢; omega)

/-- C9 witness: the bit pattern of the double `1.0`. -/
theorem claim_C9_hex_roundtrip_witness :
    4607182418800017408 < 2 ^ 64 ∧
      (toHexU64 4607182418800017408 =
          "0x" ++ String.mk (toHexDigits 4607182418800017408 16) ∧
        (toHexDigits 4607182418800017408 16).length = 16 ∧
        parseHexDigits (toHexDigits 4607182418800017408 16) =
          4607182418800017408) :=
  ⟨by norm_num, claim_C9_hex_roundtrip 4607182418800017408 (by norm_num)⟩

/-- Model of `std::lround`: round half away from zero, from `ToUnorm8`
(`dawn_checksum.cpp` line 254). -/
def lround (x : ℚ) : ℤ :=
  if 0 ≤ x then ⌊x + 1/2⌋ else -⌊-x + 1/2⌋

/-- Model of `ToUnorm8` (`dawn_checksum.cpp` lines 252-255): clamp to `[0, 1]`,
scale by 255, round.  The result is kept as an integer; the `u8` cast in
the source is lossless because the result lies in `[0, 255]`
(theorem `toUnorm8_range`). -/
def toUnorm8 (value : ℚ) : ℤ :=
  lround (min (max value 0) 1 * 255)

/-- Model of `LinearToSrgb` (`dawn_checksum.cpp` lines 245-250), with the
floating-point `std::pow` abstract: the linear segment below the
`0.0031308` knee, the gamma segment above it. -/
def linearToSrgb (powf : ℚ → ℚ → ℚ) (c : ℚ) : ℚ :=
  if c ≤ 31308 / 10 ^ 7 then c * (1292 / 100)
  else 1055 / 1000 * powf c (1 / (24 / 10)) - 55 / 1000

/-- Per-pixel body of `ConvertLinearPluToRgba8` (`dawn_checksum.cpp`
lines 276-286): clamp alpha, take the reciprocal-alpha factor as 0 when
the clamped alpha is at most `1e-8`, un-premultiply and clamp the color
channels, apply the forward sRGB transfer, and round all four channels
to bytes. -/
def convertPixel (powf : ℚ → ℚ → ℚ) (r g b a : ℚ) : ℤ × ℤ × ℤ × ℤ :=
  let ca := min (max a 0) 1
  let invA := if ca > 1 / 10 ^ 8 then 1 / ca else 0
  let cr := min (max (r * invA) 0) 1
  let cg := min (max (g * invA) 0) 1
  let cb := min (max (b * invA) 0) 1
  (toUnorm8 (linearToSrgb powf cr), toUnorm8 (linearToSrgb powf cg),
    toUnorm8 (linearToSrgb powf cb), toUnorm8 ca)

/-- Model of `ConvertLinearPluToRgba8` (`dawn_checksum.cpp` lines 274-288): the
flat RGBA8 byte stream of a premultiplied linear pixel list. -/
def convertLinearPluToRgba8 (powf : ℚ → ℚ → ℚ)
    (pixels : List (ℚ × ℚ × ℚ × ℚ)) : List ℤ :=
  (pixels.map (fun p =>
    [(convertPixel powf p.1 p.2.1 p.2.2.1 p.2.2.2).1,
     (convertPixel powf p.1 p.2.1 p.2.2.1 p.2.2.2).2.1,
     (convertPixel powf p.1 p.2.1 p.2.2.1 p.2.2.2).2.2.1,
     (convertPixel powf p.1 p.2.1 p.2.2.1 p.2.2.2).2.2.2])).flatten

/-- The value fits in one unsigned output byte. -/
def byteInRange (v : ℤ) : Prop := 0 ≤ v ∧ v ≤ 255

theorem toUnorm8_range (v : ℚ) : byteInRange (toUnorm8 v) := by
  have h0 : (0 : ℚ) ≤ min (max v 0) 1 := le_min (le_max_right v 0) zero_le_one
  have h1 : min (max v 0) 1 ≤ 1 := min_le_right _ _
  have hx0 : (0 : ℚ) ≤ min (max v 0) 1 * 255 := mul_nonneg h0 (by norm_num)
  have hx1 : min (max v 0) 1 * 255 ≤ 255 := by nlinarith
  rw [byteInRange, toUnorm8, lround, if_pos hx0]
  constructor
  · exact Int.le_floor.mpr (by push_cast; linarith)
  · have hy : min (max v 0) 1 * 255 + 1/2 < 256 := by linarith
    have hfl : ((⌊min (max v 0) 1 * 255 + 1/2⌋ : ℤ) : ℚ) < 256 :=
      lt_of_le_of_lt (Int.floor_le _) hy
    exact_mod_cast Int.lt_add_one_iff.mp (by exact_mod_cast hfl)

/-- C10: the debug re-encoding from premultiplied linear RGBA to RGBA8 is
total: every produced byte lies in `[0, 255]` for every input pixel list
and every power function, and whenever a pixel's clamped alpha is at most
`1e-8` the reciprocal-alpha factor is taken as `0`, so that pixel's RGB
bytes are all `0` (no division by the tiny alpha ever happens). -/
theorem claim_C10_reencode_total (powf : ℚ → ℚ → ℚ) (r g b a : ℚ)
    (ha : min (max a 0) 1 ≤ 1 / 10 ^ 8) :
    (∀ (powg : ℚ → ℚ → ℚ) (pixels : List (ℚ × ℚ × ℚ × ℚ)),
        ∀ byte ∈ convertLinearPluToRgba8 powg pixels, byteInRange byte) ∧
      (convertPixel powf r g b a).1 = 0 ∧
      (convertPixel powf r g b a).2.1 = 0 ∧
      (convertPixel powf r g b a).2.2.1 = 0 := by
  have hca : ¬ ((1 : ℚ) / 10 ^ 8 < min (max a 0) 1) := not_lt.mpr ha
  have hzero : toUnorm8 (linearToSrgb powf (min (max 0 0) 1)) = 0 := by
    have hmin : (min (max (0:ℚ) 0) 1) = 0 := by norm_num
    rw [hmin, linearToSrgb, if_pos (by norm_num : (0:ℚ) ≤ 31308 / 10 ^ 7)]
    norm_num [toUnorm8, lround]
  refine ⟨?_, ?_, ?_, ?_⟩
  · intro powg pixels byte hbyte
    simp only [convertLinearPluToRgba8, List.mem_flatten, List.mem_map] at hbyte
    obtain ⟨l, ⟨p, _, hl⟩, hin⟩ := hbyte
    subst hl
    simp only [List.mem_cons, List.not_mem_nil, or_false] at hin
    rcases hin with h | h | h | h <;> rw [h] <;> exact toUnorm8_range _
  · show toUnorm8 (linearToSrgb powf
        (min (max (r * (if min (max a 0) 1 > 1 / 10 ^ 8 then 1 / min (max a 0) 1 else 0)) 0) 1)) = 0
    rw [if_neg hca, mul_zero]
    exact hzero
  · show toUnorm8 (linearToSrgb powf
        (min (max (g * (if min (max a 0) 1 > 1 / 10 ^ 8 then 1 / min (max a 0) 1 else 0)) 0) 1)) = 0
    rw [if_neg hca, mul_zero]
    exact hzero
  · show toUnorm8 (linearToSrgb powf
        (min (max (b * (if min (max a 0) 1 > 1 / 10 ^ 8 then 1 / min (max a 0) 1 else 0)) 0) 1)) = 0
    rw [if_neg hca, mul_zero]
    exact hzero

/-- C10 witness: a fully transparent pixel with nonzero premultiplied
channels. -/
theorem claim_C10_reencode_total_witness :
    min (max (0 : ℚ) 0) 1 ≤ 1 / 10 ^ 8 ∧
      ((∀ (powg : ℚ → ℚ → ℚ) (pixels : List (ℚ × ℚ × ℚ × ℚ)),
          ∀ byte ∈ convertLinearPluToRgba8 powg pixels, byteInRange byte) ∧
        (convertPixel (fun x _ => x) (1/2) (1/3) (1/4) 0).1 = 0 ∧
        (convertPixel (fun x _ => x) (1/2) (1/3) (1/4) 0).2.1 = 0 ∧
        (convertPixel (fun x _ => x) (1/2) (1/3) (1/4) 0).2.2.1 = 0) :=
  ⟨by norm_num,
    claim_C10_reencode_total (fun x _ => x) (1/2) (1/3) (1/4) 0 (by norm_num)⟩

/-- C7 witness for the amended statement: a concrete successful run. -/
theorem claim_C7_amended_witness :
    (successStdoutWrites "0.00000000" "b.png" 5 1 2).length = 4 ∧
      (successStdoutWrites "0.00000000" "b.png" 5 1 2).head? =
        some ("0.00000000" ++ "\t" ++ "b.png" ++ "\n") ∧
      (∀ line ∈ (successStdoutWrites "0.00000000" "b.png" 5 1 2).drop 1,
        ∃ t, line = "[profiling] " ++ t) ∧
      successStdoutText "0.00000000" "b.png" 5 1 2 =
        String.join (successStdoutWrites "0.00000000" "b.png" 5 1 2) :=
  claim_C7_amended "0.00000000" "b.png" 5 1 2
